import Mathlib

/-
Verification of the OCTO Telematics poller
(custom_components/octotelematics/coordinator.py).

The coordinator's logic is embedded shallowly:
* row / cell texts (after BeautifulSoup's get_text(strip=True)) are
  `List Char`;
* the parsed statistics container (`soup.find('div', {'id': 'statPage2'})`)
  is a `StatsDiv` holding the texts of its `tr[align=center]` rows and, per
  `table`, the texts of its `td.inputMask` cells;
* the network is an environment: one `AttemptEnv` per loop attempt, saying
  what the login and the statistics fetch would do on that attempt;
* the coordinator's mutable fields (`_cookies`, `_last_known_values`,
  `_consecutive_failures`) are a `CoordState`, threaded explicitly, plus a
  ghost counter `logins` of `_login` invocations;
* raised exceptions (`ConfigEntryAuthFailed`, `UpdateFailed`) are
  constructors of `UpdateResult`.
-/

namespace Octo

/-- Substring test on character lists, mirroring the Python membership test
used at coordinator.py line 46 (`'KM TOTALI PERCORSI' in text`). -/
def strIn (needle hay : List Char) : Bool :=
  needle.isPrefixOf hay ||
    match hay with
    | [] => false
    | _ :: t => strIn needle t

/-- Accumulator for `digitRuns`. -/
def digitRunsAux : List Char → List Char → List (List Char)
  | [], acc => if acc.isEmpty then [] else [acc.reverse]
  | c :: cs, acc =>
    if c.isDigit then digitRunsAux cs (c :: acc)
    else if acc.isEmpty then digitRunsAux cs []
    else acc.reverse :: digitRunsAux cs []

/-- Maximal runs of decimal digits in a text, mirroring
`re.findall(r'\d+', text)` at coordinator.py line 47. -/
def digitRuns (s : List Char) : List (List Char) := digitRunsAux s []

/-- Numeric value of a digit run, mirroring `int(numbers[-1])` at
coordinator.py line 49. -/
def digitsToNat (s : List Char) : Nat :=
  s.foldl (fun a c => a * 10 + (c.toNat - ('0').toNat)) 0

/-- The fixed marker phrase searched for at coordinator.py line 46. -/
def kmMarker : List Char := ("KM TOTALI PERCORSI").toList

/-- The fixed label searched for at coordinator.py line 62. -/
def alLabel : List Char := ("AL:").toList

/-- `_extract_km_value` (coordinator.py lines 40-53): scan the texts of the
`tr[align=center]` rows; the first row containing the marker whose text has
at least one digit run yields the last run as an integer with success flag
`true`; otherwise fall back to the last-known km (`or 0`) with flag
`false`. -/
def extract_km_value (lastKm : Option Nat) (rows : List (List Char)) :
    Nat × Bool :=
  match rows with
  | [] => (lastKm.getD 0, false)
  | r :: rs =>
    if strIn kmMarker r && !(digitRuns r).isEmpty then
      (digitsToNat ((digitRuns r).getLastD []), true)
    else
      extract_km_value lastKm rs

/-- Python `str.split('/')` on a character list (`date_text.split('/')`,
coordinator.py line 67). -/
def splitSlash : List Char → List (List Char)
  | [] => [[]]
  | c :: t =>
    if c = '/' then [] :: splitSlash t
    else
      match splitSlash t with
      | [] => [[c]]
      | p :: ps => (c :: p) :: ps

/-- Python `str.zfill(2)` (coordinator.py line 68): left-pad with zeros to
width 2, keeping a leading sign in front of the padding. -/
def zfill2 (s : List Char) : List Char :=
  if 2 ≤ s.length then s
  else
    match s with
    | [] => ['0', '0']
    | c :: t =>
      if c = '+' || c = '-' then c :: (List.replicate (2 - s.length) '0' ++ t)
      else List.replicate (2 - s.length) '0' ++ s

/-- The body of the `try` at coordinator.py lines 66-68: unpack
`day, month, year = date_text.split('/')` (which succeeds exactly when the
split has three parts) and build `f"{year}-{month.zfill(2)}-{day.zfill(2)}"`;
`none` models the caught unpacking exception. -/
def tryFormatDate (s : List Char) : Option (List Char) :=
  match splitSlash s with
  | [day, month, year] => some (year ++ '-' :: (zfill2 month ++ '-' :: zfill2 day))
  | _ => none

/-- The cell scan of `_extract_update_date` (coordinator.py lines 61-70)
over one table's `td.inputMask` cell texts: at each position, if the cell
text is the label and the following cell exists and is nonempty, try to
reformat it; on unpack failure the loop simply continues. -/
def scanCells : List (List Char) → Option (List Char)
  | c1 :: c2 :: rest =>
    if c1 = alLabel then
      if c2.isEmpty then scanCells (c2 :: rest)
      else
        match tryFormatDate c2 with
        | some s => some s
        | none => scanCells (c2 :: rest)
    else scanCells (c2 :: rest)
  | _ => none

/-- The table loop of `_extract_update_date` (coordinator.py lines 58-70). -/
def scanTables : List (List (List Char)) → Option (List Char)
  | [] => none
  | t :: ts =>
    match scanCells t with
    | some s => some s
    | none => scanTables ts

/-- `_extract_update_date` (coordinator.py lines 55-74): the first
reformatted date found by the scan with flag `true`, else the last-known
date with flag `false`. -/
def extract_update_date (lastDate : List Char)
    (tables : List (List (List Char))) : List Char × Bool :=
  match scanTables tables with
  | some s => (s, true)
  | none => (lastDate, false)

/-- The parsed statistics container: texts of its centered rows and, per
table, the texts of its `inputMask` cells. -/
structure StatsDiv where
  kmRows : List (List Char)
  tables : List (List (List Char))
deriving DecidableEq

/-- The record returned by `_async_update_data` (and the shape of
`_last_known_values`): `total_km` starts out as `None`, `updated_at` as a
string. -/
structure Measurement where
  total_km : Option Nat
  updated_at : List Char
deriving DecidableEq

/-- The coordinator's mutable state (coordinator.py lines 32-37), plus a
ghost count of `_login` invocations. -/
structure CoordState where
  cookies : List (String × String)
  lastKm : Option Nat
  lastDate : List Char
  consecutiveFailures : Nat
  logins : Nat
deriving DecidableEq

/-- What the environment does when `_login` runs: the login-page GET
returns non-200, the credentials POST returns non-200, a transport error
occurs, the 30s timeout fires, or login succeeds yielding response
cookies. -/
inductive LoginEnv
  | pageBad
  | postBad
  | clientError
  | timeout
  | ok (cookies : List (String × String))
deriving DecidableEq

/-- What the environment does on the statistics GET: an HTTP response with
a status and the parse result of its body (`some` iff the `statPage2` div
is present), or a timeout / transport error / unexpected error. -/
inductive FetchEnv
  | resp (status : Nat) (div : Option StatsDiv)
  | timeout
  | clientError
  | otherError
deriving DecidableEq

/-- The environment of one attempt of the retry loop. -/
structure AttemptEnv where
  login : LoginEnv
  fetch : FetchEnv
deriving DecidableEq

/-- Outcome of one `_login` call as seen by `_async_update_data`. -/
inductive LoginStepResult
  | ok
  | authFail (msg : String)
  | timedOut
deriving DecidableEq

/-- Outcome of one iteration of the attempt loop: a `return`, a raised
`ConfigEntryAuthFailed`, a `continue`, or a caught exception handled by the
corresponding `except` block. -/
inductive AttemptOutcome
  | ret (m : Measurement)
  | auth (msg : String)
  | next
  | timedOut
  | clientErr
  | otherErr
deriving DecidableEq

/-- Result of a whole `_async_update_data` call: a returned measurement, a
raised `ConfigEntryAuthFailed`, or a raised `UpdateFailed`. -/
inductive UpdateResult
  | measurement (m : Measurement)
  | authFailed (msg : String)
  | updateFailed (msg : String)
deriving DecidableEq

/-- `_login` (coordinator.py lines 154-179): non-200 on the login page GET
or the credentials POST, and transport errors, raise
`ConfigEntryAuthFailed`; on success the response cookies replace the
session state. -/
def runLogin (st : CoordState) (env : LoginEnv) :
    LoginStepResult × CoordState :=
  let st1 := { st with logins := st.logins + 1 }
  match env with
  | .pageBad => (.authFail "Failed to access login page", st1)
  | .postBad => (.authFail "Invalid credentials", st1)
  | .clientError => (.authFail "Failed to login", st1)
  | .timeout => (.timedOut, st1)
  | .ok cs => (.ok, { st1 with cookies := cs })

/-- The success branch of `_async_update_data` (coordinator.py lines
112-126): run both extractions, overwrite each last-known field only when
its flag is true, reset the failure counter, and return the fresh
measurement. -/
def successExtract (st : CoordState) (d : StatsDiv) :
    Measurement × CoordState :=
  let km := extract_km_value st.lastKm d.kmRows
  let dt := extract_update_date st.lastDate d.tables
  (⟨some km.1, dt.1⟩,
   { st with
       lastKm := if km.2 then some km.1 else st.lastKm,
       lastDate := if dt.2 then dt.1 else st.lastDate,
       consecutiveFailures := 0 })

/-- One iteration of the attempt loop (coordinator.py lines 79-126), with
`isLast` standing for `attempt == self._max_retries - 1`: login when the
cookie dict is empty, then handle the statistics response; 401 clears the
cookies and either continues or raises; other non-200 statuses and a
missing statistics div either continue or return the last-known values;
a 200 with the div present runs the success branch. -/
def runAttempt (st : CoordState) (env : AttemptEnv) (isLast : Bool) :
    AttemptOutcome × CoordState :=
  match (if st.cookies.isEmpty then runLogin st env.login else (.ok, st)) with
  | (.authFail msg, st1) => (.auth msg, st1)
  | (.timedOut, st1) => (.timedOut, st1)
  | (.ok, st1) =>
    match env.fetch with
    | .timeout => (.timedOut, st1)
    | .clientError => (.clientErr, st1)
    | .otherError => (.otherErr, st1)
    | .resp status div =>
      if status == 401 then
        let st2 := { st1 with cookies := [] }
        if !isLast then (.next, st2) else (.auth "Session expired", st2)
      else if !(status == 200) then
        if !isLast then (.next, st1)
        else (.ret ⟨st1.lastKm, st1.lastDate⟩, st1)
      else
        match div with
        | none =>
          if !isLast then (.next, st1)
          else (.ret ⟨st1.lastKm, st1.lastDate⟩, st1)
        | some d =>
          let r := successExtract st1 d
          (.ret r.1, r.2)

/-- The retry loop of `_async_update_data` (coordinator.py lines 78-152),
recursing on the number of attempts left after the current one (`rem`;
`rem == 0` is `attempt == self._max_retries - 1`): a caught timeout on the
last attempt increments the failure counter and raises `UpdateFailed` when
it exceeds 5, otherwise returns the last-known values; caught client and
unexpected errors on the last attempt return the last-known values without
touching the counter; the fuel-exhausted base case is the `return` at line
152. -/
def runUpdateLoop (envs : Nat → AttemptEnv) :
    Nat → Nat → CoordState → UpdateResult × CoordState
  | 0, _, st => (.measurement ⟨st.lastKm, st.lastDate⟩, st)
  | rem + 1, attempt, st =>
    match runAttempt st (envs attempt) (rem == 0) with
    | (.ret m, st1) => (.measurement m, st1)
    | (.auth msg, st1) => (.authFailed msg, st1)
    | (.next, st1) => runUpdateLoop envs rem (attempt + 1) st1
    | (.timedOut, st1) =>
      if rem == 0 then
        let st2 := { st1 with consecutiveFailures := st1.consecutiveFailures + 1 }
        if 5 < st2.consecutiveFailures then
          (.updateFailed "Multiple consecutive timeout errors", st2)
        else (.measurement ⟨st2.lastKm, st2.lastDate⟩, st2)
      else runUpdateLoop envs rem (attempt + 1) st1
    | (.clientErr, st1) =>
      if rem == 0 then (.measurement ⟨st1.lastKm, st1.lastDate⟩, st1)
      else runUpdateLoop envs rem (attempt + 1) st1
    | (.otherErr, st1) =>
      if rem == 0 then (.measurement ⟨st1.lastKm, st1.lastDate⟩, st1)
      else runUpdateLoop envs rem (attempt + 1) st1

/-- `_async_update_data` with `self._max_retries = 3` (coordinator.py line
38). -/
def octoUpdate (st : CoordState) (envs : Nat → AttemptEnv) :
    UpdateResult × CoordState :=
  runUpdateLoop envs 3 0 st

/-- State after `n` consecutive `update()` calls, each driven by the same
per-attempt environment. -/
def nthCallState (envs : Nat → AttemptEnv) (st : CoordState) : Nat → CoordState
  | 0 => st
  | n + 1 => (octoUpdate (nthCallState envs st n) envs).2

/-- Well-formed `DD/MM/YYYY` following the spec's words: slash-separated
two-digit day, two-digit month and four-digit year. Spec-side definition,
used only to compare the code's acceptance with the spec's notion of a
well-formed date. -/
def specDDMMYYYY (s : List Char) : Bool :=
  match splitSlash s with
  | [day, month, year] =>
    day.length == 2 && month.length == 2 && year.length == 4 &&
      day.all Char.isDigit && month.all Char.isDigit && year.all Char.isDigit
  | _ => false

/-- Adjacent pairs of a list: `(l[i], l[i+1])` for each valid `i`; used to
state which cell pairs the scan of `_extract_update_date` visits. -/
def adjPairs {α : Type} : List α → List (α × α)
  | a :: b :: t => (a, b) :: adjPairs (b :: t)
  | _ => []

/-- Unfolding of one loop iteration. -/
theorem runUpdateLoop_succ (envs : Nat → AttemptEnv) (rem attempt : Nat) (st : CoordState) :
    runUpdateLoop envs (rem + 1) attempt st =
    match runAttempt st (envs attempt) (rem == 0) with
    | (.ret m, st1) => (.measurement m, st1)
    | (.auth msg, st1) => (.authFailed msg, st1)
    | (.next, st1) => runUpdateLoop envs rem (attempt + 1) st1
    | (.timedOut, st1) =>
      if rem == 0 then
        if 5 < st1.consecutiveFailures + 1 then
          (.updateFailed "Multiple consecutive timeout errors",
           { st1 with consecutiveFailures := st1.consecutiveFailures + 1 })
        else (.measurement ⟨st1.lastKm, st1.lastDate⟩,
              { st1 with consecutiveFailures := st1.consecutiveFailures + 1 })
      else runUpdateLoop envs rem (attempt + 1) st1
    | (.clientErr, st1) =>
      if rem == 0 then (.measurement ⟨st1.lastKm, st1.lastDate⟩, st1)
      else runUpdateLoop envs rem (attempt + 1) st1
    | (.otherErr, st1) =>
      if rem == 0 then (.measurement ⟨st1.lastKm, st1.lastDate⟩, st1)
      else runUpdateLoop envs rem (attempt + 1) st1 := rfl

/-- The update call is the loop with three attempts of fuel. -/
theorem octoUpdate_def (st : CoordState) (envs : Nat → AttemptEnv) :
    octoUpdate st envs = runUpdateLoop envs (2 + 1) 0 st := rfl

/-- A returning attempt ends the loop with its measurement. -/
theorem loop_ret (envs : Nat → AttemptEnv) (rem a : Nat) (st st1 : CoordState) (m : Measurement)
    (h : runAttempt st (envs a) (rem == 0) = (.ret m, st1)) :
    runUpdateLoop envs (rem + 1) a st = (.measurement m, st1) := by
  rw [runUpdateLoop_succ, h]

/-- A raised authentication failure ends the loop at once. -/
theorem loop_auth (envs : Nat → AttemptEnv) (rem a : Nat) (st st1 : CoordState) (msg : String)
    (h : runAttempt st (envs a) (rem == 0) = (.auth msg, st1)) :
    runUpdateLoop envs (rem + 1) a st = (.authFailed msg, st1) := by
  rw [runUpdateLoop_succ, h]

/-- A `continue` moves to the next attempt. -/
theorem loop_next (envs : Nat → AttemptEnv) (rem a : Nat) (st st1 : CoordState)
    (h : runAttempt st (envs a) (rem == 0) = (.next, st1)) :
    runUpdateLoop envs (rem + 1) a st = runUpdateLoop envs rem (a + 1) st1 := by
  rw [runUpdateLoop_succ, h]

/-- A caught timeout before the last attempt backs off and retries. -/
theorem loop_timedOut_mid (envs : Nat → AttemptEnv) (rem a : Nat) (st st1 : CoordState)
    (hrem : (rem == 0) = false)
    (h : runAttempt st (envs a) (rem == 0) = (.timedOut, st1)) :
    runUpdateLoop envs (rem + 1) a st = runUpdateLoop envs rem (a + 1) st1 := by
  rw [runUpdateLoop_succ, h]; simp [hrem]

/-- A caught timeout on the last attempt increments the failure counter and
either raises `UpdateFailed` or returns the last-known values. -/
theorem loop_timedOut_last (envs : Nat → AttemptEnv) (a : Nat) (st st1 : CoordState)
    (h : runAttempt st (envs a) (0 == 0) = (.timedOut, st1)) :
    runUpdateLoop envs (0 + 1) a st =
      if 5 < st1.consecutiveFailures + 1 then
        (.updateFailed "Multiple consecutive timeout errors",
         { st1 with consecutiveFailures := st1.consecutiveFailures + 1 })
      else (.measurement ⟨st1.lastKm, st1.lastDate⟩,
            { st1 with consecutiveFailures := st1.consecutiveFailures + 1 }) := by
  rw [runUpdateLoop_succ, h]; simp

/-- A caught client error before the last attempt backs off and retries. -/
theorem loop_clientErr_mid (envs : Nat → AttemptEnv) (rem a : Nat) (st st1 : CoordState)
    (hrem : (rem == 0) = false)
    (h : runAttempt st (envs a) (rem == 0) = (.clientErr, st1)) :
    runUpdateLoop envs (rem + 1) a st = runUpdateLoop envs rem (a + 1) st1 := by
  rw [runUpdateLoop_succ, h]; simp [hrem]

/-- A caught client error on the last attempt returns the last-known values
without touching the failure counter. -/
theorem loop_clientErr_last (envs : Nat → AttemptEnv) (a : Nat) (st st1 : CoordState)
    (h : runAttempt st (envs a) (0 == 0) = (.clientErr, st1)) :
    runUpdateLoop envs (0 + 1) a st = (.measurement ⟨st1.lastKm, st1.lastDate⟩, st1) := by
  rw [runUpdateLoop_succ, h]; simp

/-- With a session present, a timing-out fetch yields a caught timeout and
leaves the state untouched. -/
theorem runAttempt_timeout (st : CoordState) (env : AttemptEnv) (b : Bool)
    (hc : st.cookies.isEmpty = false) (hf : env.fetch = FetchEnv.timeout) :
    runAttempt st env b = (.timedOut, st) := by
  simp [runAttempt, hc, hf]

/-- With a session present, a transport error on the fetch yields a caught
client error and leaves the state untouched. -/
theorem runAttempt_client (st : CoordState) (env : AttemptEnv) (b : Bool)
    (hc : st.cookies.isEmpty = false) (hf : env.fetch = FetchEnv.clientError) :
    runAttempt st env b = (.clientErr, st) := by
  simp [runAttempt, hc, hf]

/-- With a session present, a 401 clears the cookies, then continues or — on
the last attempt — raises. -/
theorem runAttempt_401 (st : CoordState) (env : AttemptEnv) (b : Bool) (dv : Option StatsDiv)
    (hc : st.cookies.isEmpty = false) (hf : env.fetch = FetchEnv.resp 401 dv) :
    runAttempt st env b =
      (if !b then AttemptOutcome.next else .auth "Session expired",
       { st with cookies := [] }) := by
  cases b <;> simp [runAttempt, hc, hf]

/-- With a session present, a 200 whose body parses to the statistics div
runs the success branch. -/
theorem runAttempt_succ_resp (st : CoordState) (env : AttemptEnv) (b : Bool) (d : StatsDiv)
    (hc : st.cookies.isEmpty = false) (hf : env.fetch = FetchEnv.resp 200 (some d)) :
    runAttempt st env b = (.ret (successExtract st d).1, (successExtract st d).2) := by
  simp [runAttempt, hc, hf]

/-- With no session, a non-200 on the credentials POST raises
`ConfigEntryAuthFailed "Invalid credentials"` out of `_login`. -/
theorem runAttempt_postBad (st : CoordState) (env : AttemptEnv) (b : Bool)
    (hc : st.cookies.isEmpty = true) (hl : env.login = LoginEnv.postBad) :
    runAttempt st env b = (.auth "Invalid credentials", { st with logins := st.logins + 1 }) := by
  simp [runAttempt, runLogin, hc, hl]

/-- With no session, a successful login installs the response cookies and
the attempt proceeds like one that already had that session. -/
theorem runAttempt_login_ok (st : CoordState) (env : AttemptEnv) (b : Bool)
    (cs : List (String × String))
    (hc : st.cookies.isEmpty = true) (hl : env.login = LoginEnv.ok cs)
    (hcs : cs.isEmpty = false) :
    runAttempt st env b =
      runAttempt { st with cookies := cs, logins := st.logins + 1 } env b := by
  simp [runAttempt, runLogin, hc, hl, hcs]


/-- The km scan returns the last digit run of the first marker row when no
earlier row contains the marker and that row has digits. -/
theorem extract_km_first (lastKm : Option Nat) (pre post : List (List Char)) (r : List Char)
    (hpre : ∀ r' ∈ pre, strIn kmMarker r' = false)
    (hm : strIn kmMarker r = true) (hd : (digitRuns r).isEmpty = false) :
    extract_km_value lastKm (pre ++ r :: post) =
      (digitsToNat ((digitRuns r).getLastD []), true) := by
  induction pre with
  | nil => simp [extract_km_value, hm, hd]
  | cons p ps ih =>
    have hp := hpre p (by simp)
    simp only [List.cons_append, extract_km_value, hp, Bool.false_and, Bool.false_eq_true,
      if_false, Bool.and_eq_true]
    exact ih fun r' hr' => hpre r' (by simp [hr'])

/-- When no row passes the marker-and-digits test, the km scan falls back
to the last-known km (`or 0`). -/
theorem extract_km_noHit (lastKm : Option Nat) (rows : List (List Char))
    (h : ∀ r ∈ rows, (strIn kmMarker r && !(digitRuns r).isEmpty) = false) :
    extract_km_value lastKm rows = (lastKm.getD 0, false) := by
  induction rows with
  | nil => simp [extract_km_value]
  | cons r rs ih =>
    have hr := h r (by simp)
    simp only [extract_km_value, hr, if_false, Bool.false_eq_true]
    exact ih fun r' hr' => h r' (by simp [hr'])

/-- `str.split` never yields an empty list of parts. -/
theorem splitSlash_ne_nil (s : List Char) : splitSlash s ≠ [] := by
  induction s with
  | nil => simp [splitSlash]
  | cons c t ih =>
    by_cases hc : c = '/'
    · simp [splitSlash, hc]
    · simp only [splitSlash, if_neg hc]
      cases hs : splitSlash t <;> simp

/-- A cell list headed by the label and a three-part date reformats that
date. -/
theorem scanCells_head (dtext : List Char) (rest : List (List Char)) (day month year : List Char)
    (hs : splitSlash dtext = [day, month, year]) :
    scanCells (alLabel :: dtext :: rest) =
      some (year ++ '-' :: (zfill2 month ++ '-' :: zfill2 day)) := by
  have hne : dtext.isEmpty = false := by
    cases dtext
    · simp [splitSlash] at hs
    · simp
  simp [scanCells, hne, tryFormatDate, hs]

/-- When no label cell is followed by a nonempty three-part text, the cell
scan finds nothing. -/
theorem scanCells_none (cells : List (List Char))
    (h : ∀ p ∈ adjPairs cells, p.1 = alLabel →
          p.2.isEmpty = true ∨ tryFormatDate p.2 = none) :
    scanCells cells = none := by
  induction cells with
  | nil => rfl
  | cons c1 tl ih =>
    cases tl with
    | nil => rfl
    | cons c2 rest =>
      have hrec : scanCells (c2 :: rest) = none :=
        ih fun p hp hal => h p (by simp [adjPairs, hp]) hal
      by_cases hc : c1 = alLabel
      · have := h (c1, c2) (by simp [adjPairs]) hc
        rcases this with he | hn
        · simp [scanCells, hc, he, hrec]
        · by_cases he2 : c2.isEmpty
          · simp [scanCells, hc, he2, hrec]
          · simp [scanCells, hc, he2, hn, hrec]
      · simp [scanCells, hc, hrec]

/-- A hit in the first table is the result of the table scan. -/
theorem scanTables_head (t : List (List Char)) (ts : List (List (List Char))) (s : List Char)
    (h : scanCells t = some s) :
    scanTables (t :: ts) = some s := by
  simp [scanTables, h]

/-- No hit in any table means no hit overall. -/
theorem scanTables_none (tables : List (List (List Char)))
    (h : ∀ t ∈ tables, scanCells t = none) :
    scanTables tables = none := by
  induction tables with
  | nil => rfl
  | cons t ts ih =>
    have ht := h t (by simp)
    simp [scanTables, ht]
    exact ih fun t' ht' => h t' (by simp [ht'])



/-- `_login` never touches the last-known values. -/
theorem runLogin_frame (st : CoordState) (e : LoginEnv) :
    (runLogin st e).2.lastKm = st.lastKm ∧ (runLogin st e).2.lastDate = st.lastDate := by
  cases e <;> simp [runLogin]

/-- Dichotomy for one attempt: either it leaves both last-known fields
untouched and any measurement it returns is the last-known record, or it is
the success branch on some parsed statistics div, returning the fresh
measurement and overwriting each field per its extraction flag. -/
theorem runAttempt_cases (st : CoordState) (env : AttemptEnv) (b : Bool) :
    (((runAttempt st env b).2.lastKm = st.lastKm ∧
      (runAttempt st env b).2.lastDate = st.lastDate) ∧
     ∀ m, (runAttempt st env b).1 = AttemptOutcome.ret m →
       m.total_km = st.lastKm ∧ m.updated_at = st.lastDate)
    ∨ (∃ d, env.fetch = FetchEnv.resp 200 (some d) ∧
        (runAttempt st env b).1 =
          AttemptOutcome.ret ⟨some (extract_km_value st.lastKm d.kmRows).1,
                (extract_update_date st.lastDate d.tables).1⟩ ∧
        (runAttempt st env b).2.lastKm =
          (if (extract_km_value st.lastKm d.kmRows).2 = true
           then some (extract_km_value st.lastKm d.kmRows).1 else st.lastKm) ∧
        (runAttempt st env b).2.lastDate =
          (if (extract_update_date st.lastDate d.tables).2 = true
           then (extract_update_date st.lastDate d.tables).1 else st.lastDate)) := by
  rcases env with ⟨lg, ft⟩
  by_cases hc : st.cookies.isEmpty
  · cases lg with
    | ok cs =>
      cases ft with
      | resp s dv =>
        by_cases h401 : s == 401
        · left
          cases b <;> simp [runAttempt, runLogin, hc, h401]
        · by_cases h200 : s == 200
          · cases dv with
            | none =>
              left
              cases b <;> simp [runAttempt, runLogin, hc, h401, h200]
            | some d =>
              right
              refine ⟨d, ?_, ?_⟩
              · have : s = 200 := by simpa using h200
                simp [this]
              · simp [runAttempt, runLogin, hc, h401, h200, successExtract]
          · left
            cases b <;> simp [runAttempt, runLogin, hc, h401, h200]
      | timeout => left; simp [runAttempt, runLogin, hc]
      | clientError => left; simp [runAttempt, runLogin, hc]
      | otherError => left; simp [runAttempt, runLogin, hc]
    | pageBad => left; simp [runAttempt, runLogin, hc]
    | postBad => left; simp [runAttempt, runLogin, hc]
    | clientError => left; simp [runAttempt, runLogin, hc]
    | timeout => left; simp [runAttempt, runLogin, hc]
  · replace hc : st.cookies.isEmpty = false := by simpa using hc
    cases ft with
    | resp s dv =>
      by_cases h401 : s == 401
      · left
        cases b <;> simp [runAttempt, hc, h401]
      · by_cases h200 : s == 200
        · cases dv with
          | none =>
            left
            cases b <;> simp [runAttempt, hc, h401, h200]
          | some d =>
            right
            refine ⟨d, ?_, ?_⟩
            · have : s = 200 := by simpa using h200
              simp [this]
            · simp [runAttempt, hc, h401, h200, successExtract]
        · left
          cases b <;> simp [runAttempt, hc, h401, h200]
    | timeout => left; simp [runAttempt, hc]
    | clientError => left; simp [runAttempt, hc]
    | otherError => left; simp [runAttempt, hc]


/-- Frame property of the whole loop: each last-known field is unchanged
unless some attempt ran the success branch with a true extraction flag, in
which case the field holds that extracted value. -/
theorem loop_frame (envs : Nat → AttemptEnv) :
    ∀ rem a st,
      ((runUpdateLoop envs rem a st).2.lastKm = st.lastKm ∨
        ∃ i d, a ≤ i ∧ i < a + rem ∧ (envs i).fetch = FetchEnv.resp 200 (some d) ∧
          (extract_km_value st.lastKm d.kmRows).2 = true ∧
          (runUpdateLoop envs rem a st).2.lastKm =
            some (extract_km_value st.lastKm d.kmRows).1) ∧
      ((runUpdateLoop envs rem a st).2.lastDate = st.lastDate ∨
        ∃ i d, a ≤ i ∧ i < a + rem ∧ (envs i).fetch = FetchEnv.resp 200 (some d) ∧
          (extract_update_date st.lastDate d.tables).2 = true ∧
          (runUpdateLoop envs rem a st).2.lastDate =
            (extract_update_date st.lastDate d.tables).1) := by
  intro rem
  induction rem with
  | zero => intro a st; constructor <;> left <;> simp [runUpdateLoop]
  | succ rem ih =>
    intro a st
    have hca := runAttempt_cases st (envs a) (rem == 0)
    rcases hra : runAttempt st (envs a) (rem == 0) with ⟨o, st1⟩
    rw [hra] at hca
    rw [runUpdateLoop_succ, hra]
    have step_frame :
        (st1.lastKm = st.lastKm ∧ st1.lastDate = st.lastDate) ∨
        (∃ d, (envs a).fetch = FetchEnv.resp 200 (some d) ∧
          o = AttemptOutcome.ret ⟨some (extract_km_value st.lastKm d.kmRows).1,
                (extract_update_date st.lastDate d.tables).1⟩ ∧
          st1.lastKm = (if (extract_km_value st.lastKm d.kmRows).2 = true
             then some (extract_km_value st.lastKm d.kmRows).1 else st.lastKm) ∧
          st1.lastDate = (if (extract_update_date st.lastDate d.tables).2 = true
             then (extract_update_date st.lastDate d.tables).1 else st.lastDate)) := by
      rcases hca with ⟨⟨h1, h2⟩, _⟩ | ⟨d, hf, hr, hk, hd⟩
      · exact Or.inl ⟨h1, h2⟩
      · exact Or.inr ⟨d, hf, hr, hk, hd⟩
    -- helper to transfer the IH through an unchanged state
    have transfer : ∀ st1, st1.lastKm = st.lastKm → st1.lastDate = st.lastDate →
        ((runUpdateLoop envs rem (a+1) st1).2.lastKm = st.lastKm ∨
          ∃ i d, a ≤ i ∧ i < a + (rem+1) ∧ (envs i).fetch = FetchEnv.resp 200 (some d) ∧
            (extract_km_value st.lastKm d.kmRows).2 = true ∧
            (runUpdateLoop envs rem (a+1) st1).2.lastKm =
              some (extract_km_value st.lastKm d.kmRows).1) ∧
        ((runUpdateLoop envs rem (a+1) st1).2.lastDate = st.lastDate ∨
          ∃ i d, a ≤ i ∧ i < a + (rem+1) ∧ (envs i).fetch = FetchEnv.resp 200 (some d) ∧
            (extract_update_date st.lastDate d.tables).2 = true ∧
            (runUpdateLoop envs rem (a+1) st1).2.lastDate =
              (extract_update_date st.lastDate d.tables).1) := by
      intro st1 h1 h2
      have := ih (a+1) st1
      rw [h1, h2] at this
      rcases this with ⟨ha | ⟨i, d, hle, hlt, hrest⟩, hb | ⟨j, e, hle2, hlt2, hrest2⟩⟩
      · exact ⟨Or.inl ha, Or.inl hb⟩
      · exact ⟨Or.inl ha, Or.inr ⟨j, e, by omega, by omega, hrest2⟩⟩
      · exact ⟨Or.inr ⟨i, d, by omega, by omega, hrest⟩, Or.inl hb⟩
      · exact ⟨Or.inr ⟨i, d, by omega, by omega, hrest⟩,
               Or.inr ⟨j, e, by omega, by omega, hrest2⟩⟩
    cases o with
    | ret m =>
      rcases step_frame with ⟨h1, h2⟩ | ⟨d, hf, hr, hk, hd⟩
      · exact ⟨Or.inl h1, Or.inl h2⟩
      · constructor
        · by_cases hflag : (extract_km_value st.lastKm d.kmRows).2 = true
          · right
            exact ⟨a, d, le_refl a, by omega, hf, hflag, by simp [hk, hflag]⟩
          · left; simp only [hk, if_neg hflag]
        · by_cases hflag : (extract_update_date st.lastDate d.tables).2 = true
          · right
            exact ⟨a, d, le_refl a, by omega, hf, hflag, by simp [hd, hflag]⟩
          · left; simp only [hd, if_neg hflag]
    | auth msg =>
      rcases step_frame with ⟨h1, h2⟩ | ⟨d, hf, hr, hk, hd⟩
      · exact ⟨Or.inl h1, Or.inl h2⟩
      · simp at hr
    | next =>
      rcases step_frame with ⟨h1, h2⟩ | ⟨d, hf, hr, hk, hd⟩
      · exact transfer st1 h1 h2
      · simp at hr
    | timedOut =>
      rcases step_frame with ⟨h1, h2⟩ | ⟨d, hf, hr, hk, hd⟩
      · by_cases hrem : (rem == 0) = true
        · simp only [hrem, if_true]
          split <;> exact ⟨Or.inl h1, Or.inl h2⟩
        · simp only [Bool.not_eq_true] at hrem
          simp only [hrem, Bool.false_eq_true, if_false]
          exact transfer st1 h1 h2
      · simp at hr
    | clientErr =>
      rcases step_frame with ⟨h1, h2⟩ | ⟨d, hf, hr, hk, hd⟩
      · by_cases hrem : (rem == 0) = true
        · simp only [hrem, if_true]
          exact ⟨Or.inl h1, Or.inl h2⟩
        · simp only [Bool.not_eq_true] at hrem
          simp only [hrem, Bool.false_eq_true, if_false]
          exact transfer st1 h1 h2
      · simp at hr
    | otherErr =>
      rcases step_frame with ⟨h1, h2⟩ | ⟨d, hf, hr, hk, hd⟩
      · by_cases hrem : (rem == 0) = true
        · simp only [hrem, if_true]
          exact ⟨Or.inl h1, Or.inl h2⟩
        · simp only [Bool.not_eq_true] at hrem
          simp only [hrem, Bool.false_eq_true, if_false]
          exact transfer st1 h1 h2
      · simp at hr


/-- A returned measurement with a null km can only be the last-known
record. -/
theorem loop_null (envs : Nat → AttemptEnv) :
    ∀ rem a st m st',
      runUpdateLoop envs rem a st = (.measurement m, st') →
      m.total_km = none →
      m.total_km = st.lastKm ∧ m.updated_at = st.lastDate := by
  intro rem
  induction rem with
  | zero =>
    intro a st m st' heq _
    simp only [runUpdateLoop, Prod.mk.injEq, UpdateResult.measurement.injEq] at heq
    rw [← heq.1]
    exact ⟨rfl, rfl⟩
  | succ rem ih =>
    intro a st m st' heq hnone
    have hca := runAttempt_cases st (envs a) (rem == 0)
    rcases hra : runAttempt st (envs a) (rem == 0) with ⟨o, st1⟩
    rw [hra] at hca
    rw [runUpdateLoop_succ, hra] at heq
    have frame :
        (st1.lastKm = st.lastKm ∧ st1.lastDate = st.lastDate) ∨
        (∀ m', o = AttemptOutcome.ret m' → ∃ k, m'.total_km = some k) := by
      rcases hca with ⟨⟨h1, h2⟩, _⟩ | ⟨d, hf, hr, hk, hd⟩
      · exact Or.inl ⟨h1, h2⟩
      · refine Or.inr fun m' hm' => ?_
        simp only at hr
        rw [hr] at hm'
        cases hm'
        exact ⟨_, rfl⟩
    cases o with
    | ret m2 =>
      simp only [Prod.mk.injEq, UpdateResult.measurement.injEq] at heq
      rcases hca with ⟨-, hret⟩ | ⟨d, hf, hr, hk, hd⟩
      · have := hret m2 (by simp)
        rw [← heq.1] at hnone ⊢
        exact this
      · simp only at hr
        cases hr
        rw [← heq.1] at hnone
        simp at hnone
    | auth msg => simp at heq
    | next =>
      rcases frame with ⟨h1, h2⟩ | hcontra
      · have := ih (a + 1) st1 m st' heq hnone
        rw [h1, h2] at this
        exact this
      · rcases hca with ⟨⟨h1, h2⟩, _⟩ | ⟨d, hf, hr, hk, hd⟩
        · have := ih (a + 1) st1 m st' heq hnone
          rw [h1, h2] at this
          exact this
        · simp at hr
    | timedOut =>
      rcases hca with ⟨⟨h1, h2⟩, -⟩ | ⟨d, hf, hr, hk, hd⟩
      · by_cases hrem : (rem == 0) = true
        · rw [hrem] at heq
          simp only [if_true] at heq
          by_cases hcf : 5 < st1.consecutiveFailures + 1
          · simp [hcf] at heq
          · simp only [hcf, if_false] at heq
            simp only [Prod.mk.injEq, UpdateResult.measurement.injEq] at heq
            rw [← heq.1]
            exact ⟨h1.symm ▸ rfl, h2.symm ▸ rfl⟩
        · simp only [Bool.not_eq_true] at hrem
          rw [hrem] at heq
          simp only [Bool.false_eq_true, if_false] at heq
          have := ih (a + 1) st1 m st' heq hnone
          rw [h1, h2] at this
          exact this
      · simp at hr
    | clientErr =>
      rcases hca with ⟨⟨h1, h2⟩, -⟩ | ⟨d, hf, hr, hk, hd⟩
      · by_cases hrem : (rem == 0) = true
        · rw [hrem] at heq
          simp only [if_true, Prod.mk.injEq, UpdateResult.measurement.injEq] at heq
          rw [← heq.1]
          exact ⟨h1.symm ▸ rfl, h2.symm ▸ rfl⟩
        · simp only [Bool.not_eq_true] at hrem
          rw [hrem] at heq
          simp only [Bool.false_eq_true, if_false] at heq
          have := ih (a + 1) st1 m st' heq hnone
          rw [h1, h2] at this
          exact this
      · simp at hr
    | otherErr =>
      rcases hca with ⟨⟨h1, h2⟩, -⟩ | ⟨d, hf, hr, hk, hd⟩
      · by_cases hrem : (rem == 0) = true
        · rw [hrem] at heq
          simp only [if_true, Prod.mk.injEq, UpdateResult.measurement.injEq] at heq
          rw [← heq.1]
          exact ⟨h1.symm ▸ rfl, h2.symm ▸ rfl⟩
        · simp only [Bool.not_eq_true] at hrem
          rw [hrem] at heq
          simp only [Bool.false_eq_true, if_false] at heq
          have := ih (a + 1) st1 m st' heq hnone
          rw [h1, h2] at this
          exact this
      · simp at hr



/-- A km extraction that reports failure returns the last-known km
(`or 0`). -/
theorem extract_km_snd_false (lastKm : Option Nat) (rows : List (List Char))
    (h : (extract_km_value lastKm rows).2 = false) :
    extract_km_value lastKm rows = (lastKm.getD 0, false) := by
  induction rows with
  | nil => simp [extract_km_value]
  | cons r rs ih =>
    by_cases hr : (strIn kmMarker r && !(digitRuns r).isEmpty) = true
    · simp [extract_km_value, hr] at h
    · simp only [Bool.not_eq_true] at hr
      simp only [extract_km_value, hr, Bool.false_eq_true, if_false] at h ⊢
      exact ih h

/-- A call whose three attempts all time out increments the failure counter
and raises `UpdateFailed` exactly when it passes 5. -/
theorem octoUpdate_all_timeout (st : CoordState) (envs : Nat → AttemptEnv)
    (hc : st.cookies.isEmpty = false)
    (ht : ∀ a, a < 3 → (envs a).fetch = FetchEnv.timeout) :
    octoUpdate st envs =
      if 5 < st.consecutiveFailures + 1 then
        (UpdateResult.updateFailed "Multiple consecutive timeout errors",
         { st with consecutiveFailures := st.consecutiveFailures + 1 })
      else
        (UpdateResult.measurement ⟨st.lastKm, st.lastDate⟩,
         { st with consecutiveFailures := st.consecutiveFailures + 1 }) := by
  have h0 : runAttempt st (envs 0) (2 == 0) = (.timedOut, st) :=
    runAttempt_timeout _ _ _ hc (ht 0 (by omega))
  have h1 : runAttempt st (envs (0 + 1)) (1 == 0) = (.timedOut, st) :=
    runAttempt_timeout _ _ _ hc (ht 1 (by omega))
  have h2 : runAttempt st (envs (0 + 1 + 1)) (0 == 0) = (.timedOut, st) :=
    runAttempt_timeout _ _ _ hc (ht 2 (by omega))
  exact (octoUpdate_def st envs).trans
    ((loop_timedOut_mid envs 2 0 st st rfl h0).trans
      ((loop_timedOut_mid envs 1 (0 + 1) st st rfl h1).trans
        (loop_timedOut_last envs (0 + 1 + 1) st st h2)))

/-- A call whose three attempts all hit transport errors returns the
last-known values and leaves the state untouched. -/
theorem octoUpdate_all_clientError (st : CoordState) (envs : Nat → AttemptEnv)
    (hc : st.cookies.isEmpty = false)
    (he : ∀ a, a < 3 → (envs a).fetch = FetchEnv.clientError) :
    octoUpdate st envs = (UpdateResult.measurement ⟨st.lastKm, st.lastDate⟩, st) := by
  have h0 : runAttempt st (envs 0) (2 == 0) = (.clientErr, st) :=
    runAttempt_client _ _ _ hc (he 0 (by omega))
  have h1 : runAttempt st (envs (0 + 1)) (1 == 0) = (.clientErr, st) :=
    runAttempt_client _ _ _ hc (he 1 (by omega))
  have h2 : runAttempt st (envs (0 + 1 + 1)) (0 == 0) = (.clientErr, st) :=
    runAttempt_client _ _ _ hc (he 2 (by omega))
  exact (octoUpdate_def st envs).trans
    ((loop_clientErr_mid envs 2 0 st st rfl h0).trans
      ((loop_clientErr_mid envs 1 (0 + 1) st st rfl h1).trans
        (loop_clientErr_last envs (0 + 1 + 1) st st h2)))



/-- C1: on a call with no session (in particular the very first call), a
non-200 on the credentials POST during `_login` makes `update()` raise
`ConfigEntryAuthFailed "Invalid credentials"` at once, whatever the later
attempt environments — never a Last-Known-Values fallback; and, in general,
any `ConfigEntryAuthFailed` produced by an attempt ends the loop
immediately with that error. -/
theorem C1_invalid_credentials_raise (st : CoordState) (envs : Nat → AttemptEnv)
    (hc : st.cookies.isEmpty = true) (hl : (envs 0).login = LoginEnv.postBad) :
    (octoUpdate st envs).1 = UpdateResult.authFailed "Invalid credentials" ∧
    ∀ (st2 st3 : CoordState) (envs2 : Nat → AttemptEnv) (rem a : Nat) (msg : String),
      runAttempt st2 (envs2 a) (rem == 0) = (AttemptOutcome.auth msg, st3) →
      runUpdateLoop envs2 (rem + 1) a st2 = (UpdateResult.authFailed msg, st3) := by
  constructor
  · have h0 : runAttempt st (envs 0) (2 == 0) =
        (.auth "Invalid credentials", { st with logins := st.logins + 1 }) :=
      runAttempt_postBad _ _ _ hc hl
    rw [octoUpdate_def, loop_auth envs 2 0 st _ _ h0]
  · intro st2 st3 envs2 rem a msg h
    exact loop_auth envs2 rem a st2 st3 msg h

/-- C1 witness: a concrete first call with a failing credentials POST. -/
theorem C1_invalid_credentials_raise_witness :
    (octoUpdate ⟨[], none, ("Unknown").toList, 0, 0⟩
        (fun _ => ⟨LoginEnv.postBad, FetchEnv.timeout⟩)).1 =
      UpdateResult.authFailed "Invalid credentials" :=
  (C1_invalid_credentials_raise ⟨[], none, ("Unknown").toList, 0, 0⟩
    (fun _ => ⟨LoginEnv.postBad, FetchEnv.timeout⟩) rfl rfl).1

/-- C2 counterexample: a call whose three attempts all end in a transport
error (client error) returns the Last-Known Values with the Failure Counter
still at 0 — NOT incremented by exactly 1 as the claim states for the
transport-error case. -/
theorem C2_client_error_counter_cex :
    (octoUpdate ⟨[("k", "v")], some 5, ("d").toList, 0, 0⟩
        (fun _ => ⟨LoginEnv.ok [], FetchEnv.clientError⟩)).1 =
      UpdateResult.measurement ⟨some 5, ("d").toList⟩ ∧
    (octoUpdate ⟨[("k", "v")], some 5, ("d").toList, 0, 0⟩
        (fun _ => ⟨LoginEnv.ok [], FetchEnv.clientError⟩)).2.consecutiveFailures = 0 ∧
    (octoUpdate ⟨[("k", "v")], some 5, ("d").toList, 0, 0⟩
        (fun _ => ⟨LoginEnv.ok [], FetchEnv.clientError⟩)).2.consecutiveFailures ≠ 0 + 1 := by
  refine ⟨rfl, rfl, by decide⟩

/-- C2 (amended): a final-attempt timeout increments the Failure Counter
and raises `UpdateFailed` exactly when the counter exceeds 5, otherwise
returning Last-Known Values; a final-attempt transport error returns
Last-Known Values without raising and leaves the counter unchanged — the
two cases are NOT treated identically. -/
theorem C2_final_attempt_failures (st1 st2 : CoordState) (envsT envsC : Nat → AttemptEnv)
    (hc1 : st1.cookies.isEmpty = false) (hc2 : st2.cookies.isEmpty = false)
    (ht : ∀ a, a < 3 → (envsT a).fetch = FetchEnv.timeout)
    (he : ∀ a, a < 3 → (envsC a).fetch = FetchEnv.clientError) :
    octoUpdate st1 envsT =
      (if 5 < st1.consecutiveFailures + 1 then
         (UpdateResult.updateFailed "Multiple consecutive timeout errors",
          { st1 with consecutiveFailures := st1.consecutiveFailures + 1 })
       else
         (UpdateResult.measurement ⟨st1.lastKm, st1.lastDate⟩,
          { st1 with consecutiveFailures := st1.consecutiveFailures + 1 })) ∧
    octoUpdate st2 envsC = (UpdateResult.measurement ⟨st2.lastKm, st2.lastDate⟩, st2) :=
  ⟨octoUpdate_all_timeout st1 envsT hc1 ht, octoUpdate_all_clientError st2 envsC hc2 he⟩

/-- C2 witness: concrete all-timeout and all-client-error runs. -/
theorem C2_final_attempt_failures_witness :
    octoUpdate ⟨[("k", "v")], some 5, ("d").toList, 0, 0⟩
        (fun _ => ⟨LoginEnv.ok [], FetchEnv.timeout⟩) =
      (UpdateResult.measurement ⟨some 5, ("d").toList⟩,
       ⟨[("k", "v")], some 5, ("d").toList, 1, 0⟩) ∧
    octoUpdate ⟨[("k", "v")], some 5, ("d").toList, 0, 0⟩
        (fun _ => ⟨LoginEnv.ok [], FetchEnv.clientError⟩) =
      (UpdateResult.measurement ⟨some 5, ("d").toList⟩,
       ⟨[("k", "v")], some 5, ("d").toList, 0, 0⟩) := by
  have h := C2_final_attempt_failures ⟨[("k", "v")], some 5, ("d").toList, 0, 0⟩
    ⟨[("k", "v")], some 5, ("d").toList, 0, 0⟩
    (fun _ => ⟨LoginEnv.ok [], FetchEnv.timeout⟩)
    (fun _ => ⟨LoginEnv.ok [], FetchEnv.clientError⟩)
    rfl rfl (fun _ _ => rfl) (fun _ _ => rfl)
  exact ⟨h.1.trans (by decide), h.2⟩

/-- C7: km extraction scans the centered rows; when no earlier row contains
the marker phrase and the first marker row has digits, it returns the last
digit run of that row parsed as an integer; when no row contains the
marker, it reports failure and falls back to the Last-Known km (`or 0`). -/
theorem C7_km_scan (lastKm lastKm2 : Option Nat) (pre post rows2 : List (List Char))
    (r : List Char)
    (hpre : ∀ r' ∈ pre, strIn kmMarker r' = false)
    (hm : strIn kmMarker r = true)
    (hdig : (digitRuns r).isEmpty = false)
    (hnone : ∀ r' ∈ rows2, strIn kmMarker r' = false) :
    extract_km_value lastKm (pre ++ r :: post) =
      (digitsToNat ((digitRuns r).getLastD []), true) ∧
    extract_km_value lastKm2 rows2 = (lastKm2.getD 0, false) := by
  constructor
  · exact extract_km_first lastKm pre post r hpre hm hdig
  · exact extract_km_noHit lastKm2 rows2 fun r' hr' => by rw [hnone r' hr']; rfl

/-- C7 witness: the spec's example row yields 123456; a marker-free page
falls back. -/
theorem C7_km_scan_witness :
    extract_km_value none ([] ++ ("KM TOTALI PERCORSI 123456 KM").toList :: []) =
      (123456, true) ∧
    extract_km_value (some 7) [("nothing to see").toList] = (7, false) := by
  have h := C7_km_scan none (some 7) [] [] [("nothing to see").toList]
    (("KM TOTALI PERCORSI 123456 KM").toList)
    (by intro r' hr'; simp at hr') (by decide) (by decide)
    (by intro r' hr'; simp at hr'; rw [hr']; decide)
  exact ⟨h.1.trans (by decide), h.2⟩

/-- C8 counterexample: the malformed date text "1/2/x" (not a well-formed
DD/MM/YYYY date) is nonetheless accepted by the date extraction, which
returns ("x-02-01", success) instead of reporting failure. -/
theorem C8_malformed_accepted_cex :
    specDDMMYYYY (("1/2/x").toList) = false ∧
    extract_update_date (("u").toList) [[("AL:").toList, ("1/2/x").toList]] =
      (("x-02-01").toList, true) := by
  constructor <;> decide

/-- C8 (amended): date extraction reformats the cell following an 'AL:'
label whenever its text splits into exactly three '/'-separated parts —
with no validation that the parts are digits; only a following text that is
empty or does not split into exactly three parts is skipped, and when no
candidate parses the date field alone falls back to the Last-Known date. -/
theorem C8_date_scan (lastDate lastDate2 dtext day month year : List Char)
    (rest : List (List Char)) (ts tables2 : List (List (List Char)))
    (hs : splitSlash dtext = [day, month, year])
    (hno : ∀ t ∈ tables2, ∀ p ∈ adjPairs t, p.1 = alLabel →
            p.2.isEmpty = true ∨ tryFormatDate p.2 = none) :
    extract_update_date lastDate ((alLabel :: dtext :: rest) :: ts) =
      (year ++ '-' :: (zfill2 month ++ '-' :: zfill2 day), true) ∧
    extract_update_date lastDate2 tables2 = (lastDate2, false) := by
  constructor
  · unfold extract_update_date
    rw [scanTables_head _ _ _ (scanCells_head dtext rest day month year hs)]
  · unfold extract_update_date
    rw [scanTables_none tables2 fun t ht => scanCells_none t (hno t ht)]

/-- C8 witness: the spec's example date reformats to 2024-03-05 and a
three-part-less text falls back. -/
theorem C8_date_scan_witness :
    extract_update_date (("Unknown").toList)
        ((alLabel :: ("05/03/2024").toList :: []) :: []) =
      (("2024-03-05").toList, true) ∧
    extract_update_date (("u").toList) [[("AL:").toList, ("garbage").toList]] =
      (("u").toList, false) := by
  have h := C8_date_scan (("Unknown").toList) (("u").toList) (("05/03/2024").toList)
    (("05").toList) (("03").toList) (("2024").toList) [] []
    [[("AL:").toList, ("garbage").toList]]
    (by decide)
    (by
      intro t ht p hp hal
      simp at ht
      rw [ht] at hp
      simp [adjPairs] at hp
      rw [hp]
      right
      decide)
  exact ⟨h.1.trans (by decide), h.2⟩



/-- C3: on a 200 statistics page whose container holds a centered marker
row with digits and an AL: cell followed by a date, `update()` returns the
fresh measurement (last digit run of the first marker row; date reformatted
to Y-MM-DD), overwrites both Last-Known Values and resets the Failure
Counter to zero. -/
theorem C3_fresh_success (st : CoordState) (envs : Nat → AttemptEnv) (d : StatsDiv)
    (pre post : List (List Char)) (r : List Char) (rest : List (List Char))
    (ts : List (List (List Char))) (dtext day month year : List Char)
    (hc : st.cookies.isEmpty = false)
    (hf : (envs 0).fetch = FetchEnv.resp 200 (some d))
    (hrows : d.kmRows = pre ++ r :: post)
    (hpre : ∀ r' ∈ pre, strIn kmMarker r' = false)
    (hm : strIn kmMarker r = true)
    (hdig : (digitRuns r).isEmpty = false)
    (htab : d.tables = (alLabel :: dtext :: rest) :: ts)
    (hdate : splitSlash dtext = [day, month, year]) :
    octoUpdate st envs =
      (UpdateResult.measurement
         ⟨some (digitsToNat ((digitRuns r).getLastD [])),
          year ++ '-' :: (zfill2 month ++ '-' :: zfill2 day)⟩,
       { st with
           lastKm := some (digitsToNat ((digitRuns r).getLastD [])),
           lastDate := year ++ '-' :: (zfill2 month ++ '-' :: zfill2 day),
           consecutiveFailures := 0 }) := by
  have hkm : extract_km_value st.lastKm d.kmRows =
      (digitsToNat ((digitRuns r).getLastD []), true) := by
    rw [hrows]; exact extract_km_first st.lastKm pre post r hpre hm hdig
  have hdt : extract_update_date st.lastDate d.tables =
      (year ++ '-' :: (zfill2 month ++ '-' :: zfill2 day), true) := by
    rw [htab]
    unfold extract_update_date
    rw [scanTables_head _ _ _ (scanCells_head dtext rest day month year hdate)]
  have hse : successExtract st d =
      (⟨some (digitsToNat ((digitRuns r).getLastD [])),
        year ++ '-' :: (zfill2 month ++ '-' :: zfill2 day)⟩,
       { st with
           lastKm := some (digitsToNat ((digitRuns r).getLastD [])),
           lastDate := year ++ '-' :: (zfill2 month ++ '-' :: zfill2 day),
           consecutiveFailures := 0 }) := by
    simp [successExtract, hkm, hdt]
  have hra : runAttempt st (envs 0) (2 == 0) =
      (.ret (successExtract st d).1, (successExtract st d).2) :=
    runAttempt_succ_resp st (envs 0) (2 == 0) d hc hf
  rw [hse] at hra
  exact (octoUpdate_def st envs).trans (loop_ret envs 2 0 st _ _ hra)

/-- C3 witness: the spec's example page yields (123456, 2024-03-05). -/
theorem C3_fresh_success_witness :
    octoUpdate ⟨[("k", "v")], none, ("Unknown").toList, 0, 0⟩
        (fun _ => ⟨LoginEnv.ok [],
          FetchEnv.resp 200 (some ⟨[("KM TOTALI PERCORSI 123456 KM").toList],
            [[("AL:").toList, ("05/03/2024").toList]]⟩)⟩) =
      (UpdateResult.measurement ⟨some 123456, ("2024-03-05").toList⟩,
       ⟨[("k", "v")], some 123456, ("2024-03-05").toList, 0, 0⟩) := by
  have h := C3_fresh_success ⟨[("k", "v")], none, ("Unknown").toList, 0, 0⟩
    (fun _ => ⟨LoginEnv.ok [],
      FetchEnv.resp 200 (some ⟨[("KM TOTALI PERCORSI 123456 KM").toList],
        [[("AL:").toList, ("05/03/2024").toList]]⟩)⟩)
    ⟨[("KM TOTALI PERCORSI 123456 KM").toList],
     [[("AL:").toList, ("05/03/2024").toList]]⟩
    [] [] (("KM TOTALI PERCORSI 123456 KM").toList) []
    [] (("05/03/2024").toList) (("05").toList) (("03").toList) (("2024").toList)
    rfl rfl rfl (by intro r' hr'; simp at hr') (by decide) (by decide) rfl (by decide)
  exact h.trans (by decide)

/-- C4: when the km marker is absent but a valid AL: date is present, the
returned measurement carries the prior Last-Known km (`or 0` when none was
ever extracted) next to the freshly extracted date — the two fields fall
back independently, and the stored Last-Known km is left unchanged. -/
theorem C4_independent_fallback (st : CoordState) (envs : Nat → AttemptEnv) (d : StatsDiv)
    (rest : List (List Char)) (ts : List (List (List Char)))
    (dtext day month year : List Char)
    (hc : st.cookies.isEmpty = false)
    (hf : (envs 0).fetch = FetchEnv.resp 200 (some d))
    (hnm : ∀ r ∈ d.kmRows, strIn kmMarker r = false)
    (htab : d.tables = (alLabel :: dtext :: rest) :: ts)
    (hdate : splitSlash dtext = [day, month, year]) :
    octoUpdate st envs =
      (UpdateResult.measurement
         ⟨some (st.lastKm.getD 0),
          year ++ '-' :: (zfill2 month ++ '-' :: zfill2 day)⟩,
       { st with
           lastDate := year ++ '-' :: (zfill2 month ++ '-' :: zfill2 day),
           consecutiveFailures := 0 }) := by
  have hkm : extract_km_value st.lastKm d.kmRows = (st.lastKm.getD 0, false) :=
    extract_km_noHit st.lastKm d.kmRows fun r hr => by rw [hnm r hr]; rfl
  have hdt : extract_update_date st.lastDate d.tables =
      (year ++ '-' :: (zfill2 month ++ '-' :: zfill2 day), true) := by
    rw [htab]
    unfold extract_update_date
    rw [scanTables_head _ _ _ (scanCells_head dtext rest day month year hdate)]
  have hse : successExtract st d =
      (⟨some (st.lastKm.getD 0),
        year ++ '-' :: (zfill2 month ++ '-' :: zfill2 day)⟩,
       { st with
           lastDate := year ++ '-' :: (zfill2 month ++ '-' :: zfill2 day),
           consecutiveFailures := 0 }) := by
    simp [successExtract, hkm, hdt]
  have hra : runAttempt st (envs 0) (2 == 0) =
      (.ret (successExtract st d).1, (successExtract st d).2) :=
    runAttempt_succ_resp st (envs 0) (2 == 0) d hc hf
  rw [hse] at hra
  exact (octoUpdate_def st envs).trans (loop_ret envs 2 0 st _ _ hra)

/-- C4 witness: a marker-free page with a valid date, starting from a null
Last-Known km. -/
theorem C4_independent_fallback_witness :
    octoUpdate ⟨[("k", "v")], none, ("Unknown").toList, 0, 0⟩
        (fun _ => ⟨LoginEnv.ok [],
          FetchEnv.resp 200 (some ⟨[("nothing").toList],
            [[("AL:").toList, ("05/03/2024").toList]]⟩)⟩) =
      (UpdateResult.measurement ⟨some 0, ("2024-03-05").toList⟩,
       ⟨[("k", "v")], none, ("2024-03-05").toList, 0, 0⟩) := by
  have h := C4_independent_fallback ⟨[("k", "v")], none, ("Unknown").toList, 0, 0⟩
    (fun _ => ⟨LoginEnv.ok [],
      FetchEnv.resp 200 (some ⟨[("nothing").toList],
        [[("AL:").toList, ("05/03/2024").toList]]⟩)⟩)
    ⟨[("nothing").toList], [[("AL:").toList, ("05/03/2024").toList]]⟩
    [] [] (("05/03/2024").toList) (("05").toList) (("03").toList) (("2024").toList)
    rfl rfl (by intro r hr; simp at hr; rw [hr]; decide) rfl (by decide)
  exact h.trans (by decide)

/-- C9: across any whole `update()` call, the stored Last-Known km is
modified only when some attempt fetched a parsed statistics page on which
km extraction succeeded (and then holds that value), and likewise and
independently for the Last-Known date; every failure or fallback path
leaves the corresponding field unchanged. -/
theorem C9_lastknown_only_on_success (st : CoordState) (envs : Nat → AttemptEnv) :
    ((octoUpdate st envs).2.lastKm = st.lastKm ∨
      ∃ i d, i < 3 ∧ (envs i).fetch = FetchEnv.resp 200 (some d) ∧
        (extract_km_value st.lastKm d.kmRows).2 = true ∧
        (octoUpdate st envs).2.lastKm = some (extract_km_value st.lastKm d.kmRows).1) ∧
    ((octoUpdate st envs).2.lastDate = st.lastDate ∨
      ∃ i d, i < 3 ∧ (envs i).fetch = FetchEnv.resp 200 (some d) ∧
        (extract_update_date st.lastDate d.tables).2 = true ∧
        (octoUpdate st envs).2.lastDate = (extract_update_date st.lastDate d.tables).1) := by
  have h := loop_frame envs 3 0 st
  rcases h with ⟨hk | ⟨i, d, hle, hlt, h1, h2, h3⟩, hd | ⟨j, e, hle2, hlt2, g1, g2, g3⟩⟩
  · exact ⟨Or.inl hk, Or.inl hd⟩
  · exact ⟨Or.inl hk, Or.inr ⟨j, e, by omega, g1, g2, g3⟩⟩
  · exact ⟨Or.inr ⟨i, d, by omega, h1, h2, h3⟩, Or.inl hd⟩
  · exact ⟨Or.inr ⟨i, d, by omega, h1, h2, h3⟩, Or.inr ⟨j, e, by omega, g1, g2, g3⟩⟩

/-- C10: when the statistics container is present but km extraction fails
while no km was ever extracted (Last-Known km is null), the fresh
measurement carries km = 0 (not null) while the stored Last-Known km stays
null; and any returned measurement with a null km can only be the wholesale
Last-Known-Values record. -/
theorem C10_km_zero_when_never_extracted (st : CoordState) (envs : Nat → AttemptEnv)
    (d : StatsDiv)
    (hc : st.cookies.isEmpty = false)
    (hkm : st.lastKm = none)
    (hf : (envs 0).fetch = FetchEnv.resp 200 (some d))
    (hfail : (extract_km_value st.lastKm d.kmRows).2 = false) :
    octoUpdate st envs =
      (UpdateResult.measurement
         ⟨some 0, (extract_update_date st.lastDate d.tables).1⟩,
       { st with
           lastDate := if (extract_update_date st.lastDate d.tables).2 = true
                       then (extract_update_date st.lastDate d.tables).1
                       else st.lastDate,
           consecutiveFailures := 0 }) ∧
    (octoUpdate st envs).2.lastKm = none ∧
    ∀ (st2 : CoordState) (envs2 : Nat → AttemptEnv) (m : Measurement) (st3 : CoordState),
      octoUpdate st2 envs2 = (UpdateResult.measurement m, st3) →
      m.total_km = none →
      m.total_km = st2.lastKm ∧ m.updated_at = st2.lastDate := by
  have hkv : extract_km_value st.lastKm d.kmRows = (st.lastKm.getD 0, false) :=
    extract_km_snd_false st.lastKm d.kmRows hfail
  have hkv0 : extract_km_value st.lastKm d.kmRows = (0, false) := by
    rw [hkv, hkm]; rfl
  have hse : successExtract st d =
      (⟨some 0, (extract_update_date st.lastDate d.tables).1⟩,
       { st with
           lastDate := if (extract_update_date st.lastDate d.tables).2 = true
                       then (extract_update_date st.lastDate d.tables).1
                       else st.lastDate,
           consecutiveFailures := 0 }) := by
    simp [successExtract, hkv0]
  have hra : runAttempt st (envs 0) (2 == 0) =
      (.ret (successExtract st d).1, (successExtract st d).2) :=
    runAttempt_succ_resp st (envs 0) (2 == 0) d hc hf
  rw [hse] at hra
  have hrun := (octoUpdate_def st envs).trans (loop_ret envs 2 0 st _ _ hra)
  refine ⟨hrun, ?_, ?_⟩
  · rw [hrun]
    exact hkm
  · intro st2 envs2 m st3 heq hnone
    exact loop_null envs2 3 0 st2 m st3 heq hnone

/-- C10 witness: a concrete page without the marker, starting from a null
Last-Known km. -/
theorem C10_km_zero_when_never_extracted_witness :
    octoUpdate ⟨[("k", "v")], none, ("Unknown").toList, 3, 0⟩
        (fun _ => ⟨LoginEnv.ok [],
          FetchEnv.resp 200 (some ⟨[("nothing").toList],
            [[("AL:").toList, ("05/03/2024").toList]]⟩)⟩) =
      (UpdateResult.measurement ⟨some 0, ("2024-03-05").toList⟩,
       ⟨[("k", "v")], none, ("2024-03-05").toList, 0, 0⟩) := by
  have h := C10_km_zero_when_never_extracted
    ⟨[("k", "v")], none, ("Unknown").toList, 3, 0⟩
    (fun _ => ⟨LoginEnv.ok [],
      FetchEnv.resp 200 (some ⟨[("nothing").toList],
        [[("AL:").toList, ("05/03/2024").toList]]⟩)⟩)
    ⟨[("nothing").toList], [[("AL:").toList, ("05/03/2024").toList]]⟩
    rfl rfl rfl (by decide)
  exact h.1.trans (by decide)



/-- C5: a 401 on the statistics fetch clears the session cookies; on the
next attempt exactly one re-login runs (the login counter grows by exactly
one) before the call succeeds, and when 401s exhaust the attempt budget the
call raises `ConfigEntryAuthFailed "Session expired"` with the session left
cleared — never a fallback return. -/
theorem C5_401_relogin (stA stB : CoordState) (envsA envsB : Nat → AttemptEnv)
    (cs cs1 cs2 : List (String × String)) (d : StatsDiv)
    (dv dv0 dv1 dv2 : Option StatsDiv)
    (hcA : stA.cookies.isEmpty = false)
    (hfA0 : (envsA 0).fetch = FetchEnv.resp 401 dv)
    (hlA1 : (envsA 1).login = LoginEnv.ok cs)
    (hcs : cs.isEmpty = false)
    (hfA1 : (envsA 1).fetch = FetchEnv.resp 200 (some d))
    (hcB : stB.cookies.isEmpty = false)
    (hfB0 : (envsB 0).fetch = FetchEnv.resp 401 dv0)
    (hlB1 : (envsB 1).login = LoginEnv.ok cs1) (hcs1 : cs1.isEmpty = false)
    (hfB1 : (envsB 1).fetch = FetchEnv.resp 401 dv1)
    (hlB2 : (envsB 2).login = LoginEnv.ok cs2) (hcs2 : cs2.isEmpty = false)
    (hfB2 : (envsB 2).fetch = FetchEnv.resp 401 dv2) :
    octoUpdate stA envsA =
      (UpdateResult.measurement
         ⟨some (extract_km_value stA.lastKm d.kmRows).1,
          (extract_update_date stA.lastDate d.tables).1⟩,
       { stA with
           cookies := cs,
           lastKm := if (extract_km_value stA.lastKm d.kmRows).2 = true
                     then some (extract_km_value stA.lastKm d.kmRows).1
                     else stA.lastKm,
           lastDate := if (extract_update_date stA.lastDate d.tables).2 = true
                       then (extract_update_date stA.lastDate d.tables).1
                       else stA.lastDate,
           consecutiveFailures := 0,
           logins := stA.logins + 1 }) ∧
    octoUpdate stB envsB =
      (UpdateResult.authFailed "Session expired",
       { stB with cookies := [], logins := stB.logins + 2 }) := by
  constructor
  · -- scenario A
    have h0 : runAttempt stA (envsA 0) (2 == 0) =
        (AttemptOutcome.next, { stA with cookies := [] }) := by
      rw [runAttempt_401 stA (envsA 0) (2 == 0) dv hcA hfA0]
      rfl
    have h1 : runAttempt { stA with cookies := [] } (envsA (0 + 1)) (1 == 0) =
        (AttemptOutcome.ret
           (successExtract { stA with cookies := cs, logins := stA.logins + 1 } d).1,
         (successExtract { stA with cookies := cs, logins := stA.logins + 1 } d).2) := by
      have hlo := runAttempt_login_ok { stA with cookies := [] } (envsA (0 + 1)) (1 == 0)
        cs rfl hlA1 hcs
      rw [hlo]
      exact runAttempt_succ_resp _ (envsA (0 + 1)) (1 == 0) d hcs hfA1
    have hse : (successExtract { stA with cookies := cs, logins := stA.logins + 1 } d) =
        (⟨some (extract_km_value stA.lastKm d.kmRows).1,
          (extract_update_date stA.lastDate d.tables).1⟩,
         { stA with
             cookies := cs,
             lastKm := if (extract_km_value stA.lastKm d.kmRows).2 = true
                       then some (extract_km_value stA.lastKm d.kmRows).1
                       else stA.lastKm,
             lastDate := if (extract_update_date stA.lastDate d.tables).2 = true
                         then (extract_update_date stA.lastDate d.tables).1
                         else stA.lastDate,
             consecutiveFailures := 0,
             logins := stA.logins + 1 }) := by
      simp [successExtract]
    rw [hse] at h1
    exact (octoUpdate_def stA envsA).trans
      ((loop_next envsA 2 0 stA _ h0).trans (loop_ret envsA 1 (0 + 1) _ _ _ h1))
  · -- scenario B
    have h0 : runAttempt stB (envsB 0) (2 == 0) =
        (AttemptOutcome.next, { stB with cookies := [] }) := by
      rw [runAttempt_401 stB (envsB 0) (2 == 0) dv0 hcB hfB0]
      rfl
    have h1 : runAttempt { stB with cookies := [] } (envsB (0 + 1)) (1 == 0) =
        (AttemptOutcome.next,
         { stB with cookies := [], logins := stB.logins + 1 }) := by
      have hlo := runAttempt_login_ok { stB with cookies := [] } (envsB (0 + 1)) (1 == 0)
        cs1 rfl hlB1 hcs1
      rw [hlo]
      rw [runAttempt_401 _ (envsB (0 + 1)) (1 == 0) dv1 hcs1 hfB1]
      rfl
    have h2 : runAttempt { stB with cookies := [], logins := stB.logins + 1 }
        (envsB (0 + 1 + 1)) (0 == 0) =
        (AttemptOutcome.auth "Session expired",
         { stB with cookies := [], logins := stB.logins + 1 + 1 }) := by
      have hlo := runAttempt_login_ok
        { stB with cookies := [], logins := stB.logins + 1 } (envsB (0 + 1 + 1)) (0 == 0)
        cs2 rfl hlB2 hcs2
      rw [hlo]
      rw [runAttempt_401 _ (envsB (0 + 1 + 1)) (0 == 0) dv2 hcs2 hfB2]
      rfl
    exact (octoUpdate_def stB envsB).trans
      ((loop_next envsB 2 0 stB _ h0).trans
        ((loop_next envsB 1 (0 + 1) _ _ h1).trans
          (loop_auth envsB 0 (0 + 1 + 1) _ _ _ h2)))

/-- C5 witness: a concrete 401-then-success run and a concrete all-401
run. -/
theorem C5_401_relogin_witness :
    octoUpdate ⟨[("k", "v")], some 5, ("d").toList, 0, 0⟩
        (fun a => if a == 0 then ⟨LoginEnv.ok [], FetchEnv.resp 401 none⟩
                  else ⟨LoginEnv.ok [("s", "t")],
                        FetchEnv.resp 200 (some ⟨[("KM TOTALI PERCORSI 9 KM").toList],
                          [[("AL:").toList, ("05/03/2024").toList]]⟩)⟩) =
      (UpdateResult.measurement ⟨some 9, ("2024-03-05").toList⟩,
       ⟨[("s", "t")], some 9, ("2024-03-05").toList, 0, 1⟩) ∧
    octoUpdate ⟨[("k", "v")], some 5, ("d").toList, 0, 0⟩
        (fun _ => ⟨LoginEnv.ok [("s", "t")], FetchEnv.resp 401 none⟩) =
      (UpdateResult.authFailed "Session expired",
       ⟨[], some 5, ("d").toList, 0, 2⟩) := by
  have h := C5_401_relogin ⟨[("k", "v")], some 5, ("d").toList, 0, 0⟩
    ⟨[("k", "v")], some 5, ("d").toList, 0, 0⟩
    (fun a => if a == 0 then ⟨LoginEnv.ok [], FetchEnv.resp 401 none⟩
              else ⟨LoginEnv.ok [("s", "t")],
                    FetchEnv.resp 200 (some ⟨[("KM TOTALI PERCORSI 9 KM").toList],
                      [[("AL:").toList, ("05/03/2024").toList]]⟩)⟩)
    (fun _ => ⟨LoginEnv.ok [("s", "t")], FetchEnv.resp 401 none⟩)
    [("s", "t")] [("s", "t")] [("s", "t")]
    ⟨[("KM TOTALI PERCORSI 9 KM").toList], [[("AL:").toList, ("05/03/2024").toList]]⟩
    none none none none
    rfl rfl rfl rfl rfl rfl rfl rfl rfl rfl rfl rfl rfl
  exact ⟨h.1.trans (by decide), h.2.trans (by decide)⟩

/-- C6: starting from a zero Failure Counter, each of the first five fully
timed-out `update()` calls returns the Last-Known Values while the counter
climbs by one per call, and the sixth consecutive fully-failed call raises
`UpdateFailed`; any successful extraction resets the counter to zero. -/
theorem C6_six_consecutive_failures (st : CoordState) (envs : Nat → AttemptEnv)
    (hc : st.cookies.isEmpty = false)
    (h0 : st.consecutiveFailures = 0)
    (ht : ∀ a, a < 3 → (envs a).fetch = FetchEnv.timeout) :
    (∀ k, k < 5 →
      octoUpdate (nthCallState envs st k) envs =
        (UpdateResult.measurement ⟨st.lastKm, st.lastDate⟩,
         { st with consecutiveFailures := k + 1 })) ∧
    (octoUpdate (nthCallState envs st 5) envs).1 =
      UpdateResult.updateFailed "Multiple consecutive timeout errors" ∧
    ∀ (st2 : CoordState) (envs2 : Nat → AttemptEnv) (d : StatsDiv),
      st2.cookies.isEmpty = false →
      (envs2 0).fetch = FetchEnv.resp 200 (some d) →
      (octoUpdate st2 envs2).2.consecutiveFailures = 0 := by
  have hcall : ∀ k : Nat,
      octoUpdate { st with consecutiveFailures := k } envs =
        if 5 < k + 1 then
          (UpdateResult.updateFailed "Multiple consecutive timeout errors",
           { st with consecutiveFailures := k + 1 })
        else
          (UpdateResult.measurement ⟨st.lastKm, st.lastDate⟩,
           { st with consecutiveFailures := k + 1 }) := by
    intro k
    exact octoUpdate_all_timeout { st with consecutiveFailures := k } envs hc ht
  have hnth : ∀ k : Nat, nthCallState envs st k = { st with consecutiveFailures := k } := by
    intro k
    induction k with
    | zero =>
      show st = { st with consecutiveFailures := 0 }
      rw [← h0]
    | succ k ih =>
      show (octoUpdate (nthCallState envs st k) envs).2 = _
      rw [ih, hcall k]
      split <;> rfl
  refine ⟨?_, ?_, ?_⟩
  · intro k hk
    rw [hnth k, hcall k]
    have hlt : ¬ 5 < k + 1 := by omega
    simp [hlt]
  · rw [hnth 5, hcall 5]
    simp
  · intro st2 envs2 d hc2 hf2
    have hra : runAttempt st2 (envs2 0) (2 == 0) =
        (.ret (successExtract st2 d).1, (successExtract st2 d).2) :=
      runAttempt_succ_resp st2 (envs2 0) (2 == 0) d hc2 hf2
    have hrun := (octoUpdate_def st2 envs2).trans (loop_ret envs2 2 0 st2 _ _ hra)
    rw [hrun]
    simp [successExtract]

/-- C6 witness: a concrete run of consecutive timed-out calls. -/
theorem C6_six_consecutive_failures_witness :
    octoUpdate (nthCallState (fun _ => ⟨LoginEnv.ok [], FetchEnv.timeout⟩)
        ⟨[("k", "v")], some 5, ("d").toList, 0, 0⟩ 0)
        (fun _ => ⟨LoginEnv.ok [], FetchEnv.timeout⟩) =
      (UpdateResult.measurement ⟨some 5, ("d").toList⟩,
       ⟨[("k", "v")], some 5, ("d").toList, 1, 0⟩) ∧
    (octoUpdate (nthCallState (fun _ => ⟨LoginEnv.ok [], FetchEnv.timeout⟩)
        ⟨[("k", "v")], some 5, ("d").toList, 0, 0⟩ 5)
        (fun _ => ⟨LoginEnv.ok [], FetchEnv.timeout⟩)).1 =
      UpdateResult.updateFailed "Multiple consecutive timeout errors" := by
  have h := C6_six_consecutive_failures ⟨[("k", "v")], some 5, ("d").toList, 0, 0⟩
    (fun _ => ⟨LoginEnv.ok [], FetchEnv.timeout⟩) rfl rfl (fun _ _ => rfl)
  exact ⟨(h.1 0 (by omega)).trans (by decide), h.2.1⟩


end Octo
